import Mathlib

/-!
Verification of the gridlab grid engine and multiplayer server.

This file shallowly embeds the Rust sources of the repository:
  crates/grid_engine/src/grid_engine.rs   (occupancy grid, collision cascade, change application)
  crates/grid_engine/src/grid_view.rs     (view serialization and content hash)
  crates/grid_engine/src/engine_events.rs (event bus subscribe/unsubscribe)
  crates/grid_multiplayer/src/server.rs   (room broadcast, inbound batch handling)

Machine integers are modelled as Nat (the Rust code uses usize and never
wraps); fallible operations return Except, and Rust panics (`expect`,
`unwrap`) are modelled as the `EErr.panicked` error constructor so they are
distinguishable from `Result::Err` values returned to the caller.
-/

/-- A node, from `struct Node` in grid_engine.rs: an identified rectangle. -/
structure Node where
  id : String
  x : Nat
  y : Nat
  w : Nat
  h : Nat
deriving DecidableEq, Repr

/-- `enum Change` in grid_engine.rs: Add / Remove / Move records. -/
inductive Change where
  | add (value : Node)
  | remove (value : Node)
  | move (old_value new_value : Node)
deriving DecidableEq, Repr

/-- `struct BatchChangeValue` in grid_engine.rs. -/
structure BatchChangeValue where
  changes : List Change
  hash_before : String
  hash_after : String
deriving DecidableEq, Repr

/-- Failure outcomes of engine operations. `gridErr` models a `GridError`
returned as `Result::Err`; `panicked` models a Rust panic raised by
`.expect(..)` / `.unwrap()` (the engine has no other error kinds: the
messages below are exactly the strings appearing in the source). -/
inductive EErr where
  | gridErr (msg : String)
  | panicked (msg : String)
deriving DecidableEq, Repr

deriving instance DecidableEq for Except

/-- The occupancy grid, `Grid<Option<String>>`: a rows-by-cols array of
optional item ids, stored row-major as in the `grid` crate. -/
abbrev GridData := List (List (Option String))

/-- `Grid::new(rows, cols)`: all cells empty. -/
def mkGrid (rows cols : Nat) : GridData :=
  List.replicate rows (List.replicate cols none)

/-- `grid.get(row, col)`: `none` when out of bounds, otherwise the cell. -/
def getCell (g : GridData) (row col : Nat) : Option (Option String) :=
  (g.get? row).bind fun r => r.get? col

/-- Write a cell (used only after a successful bounds check, mirroring
`grid.get_mut`). -/
def setCell (g : GridData) (row col : Nat) (v : Option String) : GridData :=
  g.modify (fun r => r.set col v) row

/-- The items map, `BTreeMap<String, Node>`: a sorted association list. -/
abbrev Items := List (String × Node)

/-- Lexicographic string order (Rust's `Ord for String`), written out so
that it reduces inside the kernel. -/
def charsLt : List Char → List Char → Bool
  | [], [] => false
  | [], _ :: _ => true
  | _ :: _, [] => false
  | a :: as, b :: bs =>
    if a.val.toNat < b.val.toNat then true
    else if b.val.toNat < a.val.toNat then false
    else charsLt as bs

def strLt (a b : String) : Bool := charsLt a.data b.data

def itemsGet : Items → String → Option Node
  | [], _ => none
  | (k, v) :: rest, id => if k = id then some v else itemsGet rest id

def itemsInsert : Items → String → Node → Items
  | [], id, n => [(id, n)]
  | (k, v) :: rest, id, n =>
    if strLt id k then (id, n) :: (k, v) :: rest
    else if id = k then (id, n) :: rest
    else (k, v) :: itemsInsert rest id n

def itemsErase : Items → String → Items
  | [], _ => []
  | (k, v) :: rest, id => if k = id then rest else (k, v) :: itemsErase rest id

/-- `for_cell(x, y, w, h, cb)` iterates x outer (x..x+w), y inner (y..y+h);
this is the visit order of the callback. -/
def cellList (x y w h : Nat) : List (Nat × Nat) :=
  (List.range' x w).flatMap fun xi => (List.range' y h).map fun yi => (xi, yi)

/-- `enum UpdateGridOperation`. -/
inductive UpOp where
  | add
  | remove
deriving DecidableEq

/-- `update_grid`: writes (or equality-guarded clears) one cell, failing
with a `GridError` when `(row=y, col=x)` is out of bounds. -/
def updateGrid (g : GridData) (node : Node) (x y : Nat) (op : UpOp) :
    Except EErr GridData :=
  match getCell g y x with
  | some cell =>
    match op with
    | .add => .ok (setCell g y x (some node.id))
    | .remove => if cell = some node.id then .ok (setCell g y x none) else .ok g
  | none => .error (.gridErr "No element at position")

/-- The `for_cell(..)` / `update_grid(..)` loop over a list of cells. -/
def forCellsUpdate (node : Node) (op : UpOp) : GridData → List (Nat × Nat) →
    Except EErr GridData
  | g, [] => .ok g
  | g, (x, y) :: rest =>
    match updateGrid g node x y op with
    | .error e => .error e
    | .ok g2 => forCellsUpdate node op g2 rest

/-- `.expect("UnhandledError")` at the call sites of the for_cell loops:
any propagated GridError becomes a panic. -/
def expectPanic : Except EErr GridData → Except EErr GridData
  | .error _ => .error (.panicked "UnhandledError")
  | .ok g => .ok g

/-- `node.for_cell(|x,y| update_grid(...)).expect("UnhandledError")`. -/
def nodeCellsUpdate (g : GridData) (node : Node) (op : UpOp) :
    Except EErr GridData :=
  expectPanic (forCellsUpdate node op g (cellList node.x node.y node.w node.h))

/-- `will_collides_with(node, x, y, grid)`: ids occupying the target
rectangle, first-seen order over `cellList`, excluding `node.id`,
de-duplicated; out-of-bounds cells are silently skipped (`grid.get`). -/
def willCollidesWith (node : Node) (x y : Nat) (g : GridData) : List String :=
  (cellList x y node.w node.h).foldl
    (fun acc p =>
      match getCell g p.2 p.1 with
      | some (some cid) =>
        if cid ≠ node.id ∧ cid ∉ acc then acc ++ [cid] else acc
      | _ => acc) []

/-- One work item of the collision cascade: `collide` runs
`handle_collision(node, x, y, grid)`, `collideList` is its loop over the
collided ids, and `pushMove` appends the `Move` change after the recursive
`handle_collision` of `create_move_change` has returned. -/
inductive CTask where
  | collide (node : Node) (x y : Nat) (grid : GridData)
  | collideList (node : Node) (y : Nat) (ids : List String)
  | pushMove (node : Node) (nx ny : Nat)

/-- The mutually recursive `handle_collision` / `create_move_change` pair of
grid_engine.rs, presented as a fuel-indexed task interpreter so that every
step is structurally recursive (the Rust recursion terminates because each
cascade step strictly increases the displaced y; fuel exhaustion is an
artificial `panicked "fuel"` outcome never reached by the source's
reachable executions).

`items` and `realGrid` are the engine's `self.items` / `self.grid`, which
are constant during the collision phase (only `pending_changes` grows). For
each collided id C the source clones the real grid, clears the placed
node's (old) cells from the clone guarded by id equality, displaces C to
`(C.x, y + node.h)`, recursively resolves, then pushes C's `Move`. -/
def collideRun (fuel : Nat) (items : Items) (realGrid : GridData)
    (tasks : List CTask) (pending : List Change) : Except EErr (List Change) :=
  match fuel, tasks with
  | _, [] => .ok pending
  | 0, _ :: _ => .error (.panicked "fuel")
  | Nat.succ f, t :: rest =>
    match t with
    | .collide node x y g =>
      collideRun f items realGrid
        (.collideList node y (willCollidesWith node x y g) :: rest) pending
    | .collideList _ _ [] => collideRun f items realGrid rest pending
    | .collideList node y (cid :: ids) =>
      match itemsGet items cid with
      | none => .error (.panicked "Failed to get collided node")
      | some collided =>
        match nodeCellsUpdate realGrid node .remove with
        | .error e => .error e
        | .ok newGrid =>
          collideRun f items realGrid
            (.collide collided collided.x (y + node.h) newGrid ::
             .pushMove collided collided.x (y + node.h) ::
             .collideList node y ids :: rest) pending
    | .pushMove n nx ny =>
      collideRun f items realGrid rest
        (pending ++ [Change.move n ⟨n.id, nx, ny, n.w, n.h⟩])

/-- Fuel budget handed to the cascade; any value at least `rows + 2` times
the branching, far above what reachable executions use. -/
def engineFuel : Nat := 1000

/-- `create_move_change(node, new_x, new_y, grid)`: resolve collisions at
the target, then append the node's own `Move` change. -/
def createMoveChange (fuel : Nat) (items : Items) (realGrid : GridData)
    (node : Node) (nx ny : Nat) (g : GridData) (pending : List Change) :
    Except EErr (List Change) :=
  match collideRun fuel items realGrid [.collide node nx ny g] pending with
  | .error e => .error e
  | .ok p => .ok (p ++ [Change.move node ⟨node.id, nx, ny, node.w, node.h⟩])

/-- The engine state: `(grid, items, pending_changes)` of `GridEngine`. -/
structure EngineState where
  grid : GridData
  items : Items
  pending : List Change
deriving DecidableEq, Repr

/-- `GridEngine::new(rows, cols)`. -/
def S0 (rows cols : Nat) : EngineState := ⟨mkGrid rows cols, [], []⟩

/-- Canonical serialization of a cell (the view's serde output is modelled
only up to a fixed injective textual form). -/
def serializeCellS : Option String → String
  | none => "."
  | some s => "[" ++ s ++ "]"

def serializeRowS (r : List (Option String)) : String :=
  r.foldl (fun a c => a ++ serializeCellS c) ""

def serializeGridS (g : GridData) : String :=
  g.foldl (fun a r => a ++ serializeRowS r ++ ";") ""

def serializeNodeS (n : Node) : String :=
  n.id ++ ":" ++ toString n.x ++ "," ++ toString n.y ++ "," ++
    toString n.w ++ "," ++ toString n.h

def serializeItemsS (it : Items) : String :=
  it.foldl (fun a p => a ++ serializeNodeS p.2 ++ ";") ""

/-- Serialization of the engine's view in the items map's own (sorted)
order. -/
def serializeView (g : GridData) (it : Items) : String :=
  "(" ++ serializeGridS g ++ "|" ++ serializeItemsS it ++ ")"

/-- `GridView::hash()` = DefaultHasher over `serialized_as_str()`. The
hasher itself is an abstract parameter `hf` (a fixed deterministic function
within one process); theorems about the engine quantify over it. -/
def viewHash (hf : String → String) (g : GridData) (it : Items) : String :=
  hf (serializeView g it)

/-- `apply_changes(changes)`: captures `hash_before`, applies each change
in order (mutating grid and items together, panicking on out-of-bounds
writes), and returns the state together with the emitted
`BatchChange { changes, hash_before, hash_after }` event value.
`pending_changes` is neither read nor written. -/
def applyOne (g : GridData) (it : Items) : Change →
    Except EErr (GridData × Items)
  | .add n =>
    match nodeCellsUpdate g n .add with
    | .error e => .error e
    | .ok g2 => .ok (g2, itemsInsert it n.id n)
  | .remove n =>
    match nodeCellsUpdate g n .remove with
    | .error e => .error e
    | .ok g2 => .ok (g2, itemsErase it n.id)
  | .move o n =>
    match nodeCellsUpdate g o .remove with
    | .error e => .error e
    | .ok g2 =>
      let it2 := itemsInsert it n.id n
      match nodeCellsUpdate g2 n .add with
      | .error e => .error e
      | .ok g3 => .ok (g3, it2)

def applyList (g : GridData) (it : Items) : List Change →
    Except EErr (GridData × Items)
  | [] => .ok (g, it)
  | c :: cs =>
    match applyOne g it c with
    | .error e => .error e
    | .ok (g2, it2) => applyList g2 it2 cs

def applyChangesE (hf : String → String) (S : EngineState) (cs : List Change) :
    Except EErr (EngineState × BatchChangeValue) :=
  let hb := viewHash hf S.grid S.items
  match applyList S.grid S.items cs with
  | .error e => .error e
  | .ok (g2, it2) => .ok (⟨g2, it2, S.pending⟩, ⟨cs, hb, viewHash hf g2 it2⟩)

/-- The common tail of the public mutators: `apply_changes(pending)` then
`pending_changes.clear()`. -/
def commitChanges (hf : String → String) (S : EngineState) (cs : List Change) :
    Except EErr (EngineState × BatchChangeValue) :=
  match applyChangesE hf S cs with
  | .error e => .error e
  | .ok (S2, b) => .ok (⟨S2.grid, S2.items, []⟩, b)

/-- `GridEngine::add_item(id, x, y, w, h)`. -/
def addItemE (hf : String → String) (S : EngineState) (id : String)
    (x y w h : Nat) : Except EErr (EngineState × String × BatchChangeValue) :=
  match itemsGet S.items id with
  | some _ => .error (.gridErr "Id already exists")
  | none =>
    let node : Node := ⟨id, x, y, w, h⟩
    match collideRun engineFuel S.items S.grid [.collide node x y S.grid]
        S.pending with
    | .error e => .error e
    | .ok p1 =>
      match commitChanges hf S (p1 ++ [Change.add node]) with
      | .error e => .error e
      | .ok (S2, b) => .ok (S2, id, b)

/-- `GridEngine::move_item(id, new_x, new_y)`. -/
def moveItemE (hf : String → String) (S : EngineState) (id : String)
    (nx ny : Nat) : Except EErr (EngineState × BatchChangeValue) :=
  match itemsGet S.items id with
  | none => .error (.gridErr "Item not found")
  | some node =>
    match createMoveChange engineFuel S.items S.grid node nx ny S.grid
        S.pending with
    | .error e => .error e
    | .ok p1 => commitChanges hf S p1

/-- `GridEngine::remove_item(id)`. -/
def removeItemE (hf : String → String) (S : EngineState) (id : String) :
    Except EErr (EngineState × BatchChangeValue) :=
  match itemsGet S.items id with
  | none => .error (.gridErr "Item not found")
  | some node => commitChanges hf S (S.pending ++ [Change.remove node])

/-- A local public mutation. -/
inductive LocalOp where
  | addOp (id : String) (x y w h : Nat)
  | moveOp (id : String) (nx ny : Nat)
  | removeOp (id : String)

/-- Run one public mutation, returning the new state and the batch emitted
on its `BatchChange` event. -/
def runOp (hf : String → String) (S : EngineState) :
    LocalOp → Except EErr (EngineState × BatchChangeValue)
  | .addOp id x y w h =>
    match addItemE hf S id x y w h with
    | .error e => .error e
    | .ok (S2, _, b) => .ok (S2, b)
  | .moveOp id nx ny => moveItemE hf S id nx ny
  | .removeOp id => removeItemE hf S id

/-- A fixed hasher used for concrete evaluations. -/
def hfc : String → String := fun _ => "H"

/-! ### Grid view serialization order (grid_view.rs)

`GridView.items` is a `HashMap<String, Node>` and `serialized_as_str` is
`serde_json::to_string(self)`, which emits the items in the HashMap's
iteration order — an environmental input that varies with the map's
process-random seed. The order is therefore an explicit parameter here:
any permutation of the key set is a possible serialization. -/

def serializeItemsOrdered (it : Items) (order : List String) : String :=
  order.foldl
    (fun acc k =>
      match itemsGet it k with
      | some n => acc ++ serializeNodeS n ++ ";"
      | none => acc) ""

/-- `GridView::serialized_as_str()` with the HashMap iteration order made
explicit; `GridView::hash()` is the (fixed, per-process deterministic)
DefaultHasher applied to this string. -/
def gridViewSerializeOrdered (g : GridData) (it : Items) (order : List String) :
    String :=
  "(" ++ serializeGridS g ++ "|" ++ serializeItemsOrdered it order ++ ")"

/-! ### Server-side inbound batch handling (server.rs, handle_connection)

On an inbound `BatchChange` the source does:
```
if changes.hash_after == room.grid.get_grid_view().hash() {
    logger.error("Hash mismatch");
    continue;                       // drop
}
room.grid.apply_changes(&changes.changes);
```
The Bool in the result records whether the batch was applied. -/
def serverStep (hf : String → String) (S : EngineState) (b : BatchChangeValue) :
    Except EErr (Bool × EngineState) :=
  if b.hash_after = viewHash hf S.grid S.items then .ok (false, S)
  else
    match applyChangesE hf S b.changes with
    | .error e => .error e
    | .ok (S2, _) => .ok (true, S2)

/-! ### Room broadcast (server.rs, Room::broadcast_change)

```
let clients_to_close: Vec<String> = self.clients.iter()
    .filter(|(_, client)| {
        if client.id != from { return false; }
        match client.message.send(Message::binary(&event_value)) {
            Ok(_) => false,
            Err(_) => true,
        }
    })
    .map(|(_, client)| client.id.clone()).collect();
```
A send is attempted exactly for the clients whose id equals `from` (the
filter returns early for all others); a client enters `clients_to_close`
when its id equals `from` and its send fails. `sendOk` models the success
of `UnboundedSender::send` for that client. -/
structure MClient where
  id : String
  sendOk : Bool
deriving DecidableEq, Repr

/-- Returns (ids to whose outbound channel the event is enqueued,
ids scheduled for close). -/
def broadcastChange (clients : List MClient) (origin : String) :
    List String × List String :=
  ((clients.filter (fun c => c.id == origin)).map MClient.id,
   (clients.filter (fun c => c.id == origin && !c.sendOk)).map MClient.id)

/-! ### Event bus (engine_events.rs)

`EventListener.listeners : HashMap<EventName, Vec<ListenerFunction>>`,
modelled extensionally as a function from names to optional handler
vectors; handler functions are an abstract type `H`, the subscription id a
string (a fresh UUID in the source, passed explicitly here). -/
def Bus (N H : Type) := N → Option (List (String × H))

/-- `add_listener(event, function)`: push onto the entry's vector,
creating it if absent; returns the (fresh) id. -/
def addListener {N H : Type} [DecidableEq N] (bus : Bus N H) (name : N)
    (id : String) (handler : H) : Bus N H :=
  fun n => if n = name then some (((bus name).getD []) ++ [(id, handler)])
           else bus n

/-- `remove_listener(event, id)`: retain handlers whose id differs; drop
the name when its vector becomes empty; no-op when the name is absent. -/
def removeListener {N H : Type} [DecidableEq N] (bus : Bus N H) (name : N)
    (id : String) : Bus N H :=
  fun n =>
    if n = name then
      match bus name with
      | none => none
      | some l =>
        let l2 := l.filter (fun q => q.1 != id)
        if l2.isEmpty then none else some l2
    else bus n

/-- Projection forgetting the pending list (used to state that
`apply_changes` neither reads nor writes `pending_changes`). -/
def projGIB (r : EngineState × BatchChangeValue) :
    GridData × Items × BatchChangeValue :=
  (r.1.grid, r.1.items, r.2)

/-! ## Claim theorems -/

/-- C2: Add collision cascade on a 10-by-10 grid. After
`add_item("0",0,0,2,2)` then `add_item("1",0,0,2,2)`, node `"1"` is stored
at (0,0) and node `"0"` at (0,2), and the batch emitted for the second add
is, in order, a `Move` for `"0"` from (0,0) to (0,2) followed by an `Add`
for `"1"` at (0,0): displaced-node moves precede the outer change. -/
theorem add_collision_cascade :
    (match addItemE hfc (S0 10 10) "0" 0 0 2 2 with
      | .ok (S1, _, _) => addItemE hfc S1 "1" 0 0 2 2
      | .error e => .error e).map
        (fun r : EngineState × String × BatchChangeValue =>
          (itemsGet r.1.items "1", itemsGet r.1.items "0",
           r.2.2.changes)) =
    .ok (some ⟨"1", 0, 0, 2, 2⟩, some ⟨"0", 0, 2, 2, 2⟩,
         [Change.move ⟨"0", 0, 0, 2, 2⟩ ⟨"0", 0, 2, 2, 2⟩,
          Change.add ⟨"1", 0, 0, 2, 2⟩]) := by
  decide

/-- C3: the occupancy invariant FAILS on a reachable state. On a 10-by-10
grid, `add("A",0,0,1,1); add("B",0,2,1,1); add("N",0,0,1,4)` all succeed,
yet afterwards the stored nodes `"A"` and `"B"` both sit at (0,4) with size
1-by-1 — their rectangles coincide — and the cell at row 4, column 0 holds
`"B"` although it lies inside `"A"`'s rectangle. Each sibling displacement
of the cascade is resolved against the pre-move grid, so both displaced
nodes land on the same cells. -/
theorem occupancy_invariant_violation :
    (match (match addItemE hfc (S0 10 10) "A" 0 0 1 1 with
              | .ok (S1, _, _) => addItemE hfc S1 "B" 0 2 1 1
              | .error e => .error e) with
      | .ok (S2, _, _) => addItemE hfc S2 "N" 0 0 1 4
      | .error e => .error e).map
        (fun r : EngineState × String × BatchChangeValue =>
          (itemsGet r.1.items "A", itemsGet r.1.items "B",
           getCell r.1.grid 4 0)) =
    .ok (some ⟨"A", 0, 4, 1, 1⟩, some ⟨"B", 0, 4, 1, 1⟩, some (some "B")) := by
  decide

/-- C4: the view hash is NOT a pure function of the view's content. The
string fed to the hasher serializes the items in the HashMap's iteration
order; the two orders below are permutations of the same two-item map
(equal content), yet they serialize differently, so the DefaultHasher
digests differ between two processes whose maps iterate differently. -/
theorem hash_order_dependence :
    List.Perm ["0", "1"] ["1", "0"] ∧
    gridViewSerializeOrdered (mkGrid 1 2)
        [("0", ⟨"0", 0, 0, 1, 1⟩), ("1", ⟨"1", 1, 0, 1, 1⟩)] ["0", "1"] ≠
      gridViewSerializeOrdered (mkGrid 1 2)
        [("0", ⟨"0", 0, 0, 1, 1⟩), ("1", ⟨"1", 1, 0, 1, 1⟩)] ["1", "0"] :=
  ⟨List.Perm.swap "1" "0" [], by decide⟩

/-- C5: the divergence check is inverted in server.rs. A batch whose
`hash_before` (and `hash_after`) equals the room's current view hash — a
consistent peer, which the claim says must be applied — is dropped, while
a batch whose `hash_before` differs from the current hash — divergence,
which the claim says must be dropped — is applied: the code compares
`hash_after` with the current hash and drops exactly on equality. -/
theorem divergence_check_inverted :
    serverStep hfc (S0 16 12)
        ⟨[], viewHash hfc (S0 16 12).grid (S0 16 12).items,
         viewHash hfc (S0 16 12).grid (S0 16 12).items⟩ =
      .ok (false, S0 16 12) ∧
    "X" ≠ viewHash hfc (S0 16 12).grid (S0 16 12).items ∧
    (serverStep hfc (S0 16 12)
        ⟨[Change.add ⟨"0", 0, 0, 1, 1⟩], "X", "Y"⟩).map
      (fun r => (r.1, itemsGet r.2.items "0")) =
    .ok (true, some ⟨"0", 0, 0, 1, 1⟩) := by
  refine ⟨by decide, by decide, by decide⟩

/-- C6: `Room::broadcast_change` enqueues only onto the ORIGINATOR's
channel. With clients A, B, C all healthy, a broadcast from A is sent to
exactly A (B and C receive nothing); and a failing send schedules only the
originator for close. The filter predicate returns `false` for every
client whose id differs from `from` before any send happens. -/
theorem broadcast_only_originator :
    broadcastChange [⟨"A", true⟩, ⟨"B", true⟩, ⟨"C", true⟩] "A" =
      (["A"], []) ∧
    broadcastChange [⟨"A", false⟩, ⟨"B", true⟩] "A" = (["A"], ["A"]) := by
  refine ⟨by decide, by decide⟩

/-- C7: out-of-bounds placement does not produce a recoverable
`OutOfBounds` error — it panics. On a 10-by-10 grid,
`add_item("0",9,9,2,2)` (x+w = 11 > 10) reaches `apply_changes`, writes
cell (9,9), then hits `.expect("UnhandledError")` on the out-of-bounds
write; likewise the cascade displacement of `add("0",0,8,2,2);
add("1",0,8,2,2)` pushes `"0"` to row 10 and panics while applying the
`Move`. No rollback happens and no `OutOfBounds` error value exists in the
engine. -/
theorem out_of_bounds_panics :
    addItemE hfc (S0 10 10) "0" 9 9 2 2 =
      .error (.panicked "UnhandledError") ∧
    (match addItemE hfc (S0 10 10) "0" 0 8 2 2 with
      | .ok (S1, _, _) => addItemE hfc S1 "1" 0 8 2 2
      | .error e => .error e) =
      .error (.panicked "UnhandledError") := by
  refine ⟨by decide, by decide⟩

/-! ### Replay equivalence (C1) -/

/-- Shape of a successful `commitChanges`: the batch records exactly the
applied change list and the pre/post view hashes, and the resulting state
is the applied grid and items with `pending_changes` cleared. -/
theorem commitChanges_ok {hf : String → String} {S : EngineState}
    {cs : List Change} {r : EngineState × BatchChangeValue}
    (h : commitChanges hf S cs = .ok r) :
    ∃ g2 it2, applyList S.grid S.items cs = .ok (g2, it2) ∧
      r = (⟨g2, it2, []⟩,
           ⟨cs, viewHash hf S.grid S.items, viewHash hf g2 it2⟩) := by
  unfold commitChanges applyChangesE at h
  split at h
  · exact absurd h (by simp)
  · next S2 b heq =>
    split at heq
    · exact absurd heq (by simp)
    · next g2 it2 ha =>
      obtain ⟨rfl, rfl⟩ : S2 = ⟨g2, it2, S.pending⟩ ∧
          b = ⟨cs, viewHash hf S.grid S.items, viewHash hf g2 it2⟩ := by
        have := heq
        simp only [Except.ok.injEq, Prod.mk.injEq] at this
        exact ⟨this.1.symm, this.2.symm⟩
      obtain rfl : r = (⟨g2, it2, []⟩,
          ⟨cs, viewHash hf S.grid S.items, viewHash hf g2 it2⟩) := by
        simp only [Except.ok.injEq] at h
        exact h.symm
      exact ⟨g2, it2, ha, rfl⟩

/-- A successful `commitChanges` replays: applying the recorded change
list to the starting state reproduces the committed grid and items. -/
theorem commit_replay {hf : String → String} {S : EngineState}
    {cs : List Change} {r : EngineState × BatchChangeValue}
    (h : commitChanges hf S cs = .ok r) :
    ∃ r2, applyChangesE hf S r.2.changes = .ok r2 ∧
      r2.1.grid = r.1.grid ∧ r2.1.items = r.1.items ∧
      viewHash hf r2.1.grid r2.1.items = viewHash hf r.1.grid r.1.items := by
  obtain ⟨g2, it2, ha, rfl⟩ := commitChanges_ok h
  refine ⟨(⟨g2, it2, S.pending⟩,
    ⟨cs, viewHash hf S.grid S.items, viewHash hf g2 it2⟩), ?_, rfl, rfl, rfl⟩
  unfold applyChangesE
  simp only [ha]

/-- Every successful public mutation is a `commitChanges` of some change
list (the pending batch it accumulated). -/
theorem runOp_commit {hf : String → String} {S : EngineState} {op : LocalOp}
    {r : EngineState × BatchChangeValue} (hok : runOp hf S op = .ok r) :
    ∃ cs, commitChanges hf S cs = .ok r := by
  cases op with
  | addOp id x y w h =>
    simp only [runOp] at hok
    cases ha : addItemE hf S id x y w h with
    | error e => simp [ha] at hok
    | ok t =>
      obtain ⟨S2, i2, b⟩ := t
      simp only [ha] at hok
      have hr : (S2, b) = r := by simpa using hok
      obtain rfl := hr
      unfold addItemE at ha
      cases hg : itemsGet S.items id with
      | some v => simp [hg] at ha
      | none =>
        simp only [hg] at ha
        cases hc : collideRun engineFuel S.items S.grid
            [.collide ⟨id, x, y, w, h⟩ x y S.grid] S.pending with
        | error e => simp [hc] at ha
        | ok p1 =>
          simp only [hc] at ha
          cases hcm : commitChanges hf S
              (p1 ++ [Change.add ⟨id, x, y, w, h⟩]) with
          | error e => simp [hcm] at ha
          | ok rc =>
            obtain ⟨S3, b3⟩ := rc
            simp only [hcm] at ha
            have h3 : S3 = S2 ∧ id = i2 ∧ b3 = b := by simpa using ha
            obtain ⟨rfl, -, rfl⟩ := h3
            exact ⟨_, hcm⟩
  | moveOp id nx ny =>
    simp only [runOp] at hok
    unfold moveItemE at hok
    cases hg : itemsGet S.items id with
    | none => simp [hg] at hok
    | some node =>
      simp only [hg] at hok
      cases hc : createMoveChange engineFuel S.items S.grid node nx ny
          S.grid S.pending with
      | error e => simp [hc] at hok
      | ok p1 =>
        simp only [hc] at hok
        exact ⟨p1, hok⟩
  | removeOp id =>
    simp only [runOp] at hok
    unfold removeItemE at hok
    cases hg : itemsGet S.items id with
    | none => simp [hg] at hok
    | some node =>
      simp only [hg] at hok
      exact ⟨_, hok⟩

/-- C1: replay equivalence. For every engine state S and every local
operation (add, move, remove) that succeeds on engine A in state S,
feeding the change list of the batch emitted by A's `BatchChange` event to
`apply_changes` on a second engine B that starts in state S — with no
collision resolution re-run — leaves B with the same grid, the same items
map, and the same view hash as A has after the operation. -/
theorem replay_equivalence (hf : String → String) (S : EngineState)
    (op : LocalOp) (r : EngineState × BatchChangeValue)
    (hok : runOp hf S op = .ok r) :
    ∃ r2, applyChangesE hf S r.2.changes = .ok r2 ∧
      r2.1.grid = r.1.grid ∧ r2.1.items = r.1.items ∧
      viewHash hf r2.1.grid r2.1.items = viewHash hf r.1.grid r.1.items := by
  obtain ⟨cs, hcm⟩ := runOp_commit hok
  exact commit_replay hcm

/-! ### Pending-changes boundary (C9) -/

/-- C9: `pending_changes` is empty at every public-operation boundary.
Every successful `add_item` / `move_item` / `remove_item` returns with an
empty pending list (each clears it after applying), and `apply_changes` on
an externally supplied batch neither modifies the pending list (it is
returned untouched) nor reads it (the resulting grid, items and emitted
batch are the same for every value of the pending list). -/
theorem pending_changes_boundary (hf : String → String) (S : EngineState) :
    (∀ op r, runOp hf S op = .ok r → r.1.pending = []) ∧
    (∀ cs r, applyChangesE hf S cs = .ok r → r.1.pending = S.pending) ∧
    (∀ p cs, Except.map projGIB (applyChangesE hf ⟨S.grid, S.items, p⟩ cs) =
             Except.map projGIB (applyChangesE hf S cs)) := by
  refine ⟨?_, ?_, ?_⟩
  · intro op r hok
    obtain ⟨cs, hcm⟩ := runOp_commit hok
    obtain ⟨g2, it2, -, rfl⟩ := commitChanges_ok hcm
    rfl
  · intro cs r h
    unfold applyChangesE at h
    cases ha : applyList S.grid S.items cs with
    | error e => simp [ha] at h
    | ok t =>
      obtain ⟨g2, it2⟩ := t
      simp only [ha] at h
      have hr : ((⟨g2, it2, S.pending⟩ : EngineState),
          (⟨cs, viewHash hf S.grid S.items, viewHash hf g2 it2⟩ :
            BatchChangeValue)) = r := by
        simpa using h
      obtain rfl := hr
      rfl
  · intro p cs
    unfold applyChangesE
    cases ha : applyList S.grid S.items cs with
    | error e => simp [ha]
    | ok t =>
      obtain ⟨g2, it2⟩ := t
      simp [ha, projGIB, Except.map]

/-! ### Zero-area nodes (C10) -/

theorem cellList_zero {x y w h : Nat} (hwh : w = 0 ∨ h = 0) :
    cellList x y w h = [] := by
  cases hwh with
  | inl h0 => subst h0; rfl
  | inr h0 => subst h0; simp [cellList]

theorem nodeCellsUpdate_zero {g : GridData} {id : String} {x y w h : Nat}
    {op : UpOp} (hwh : w = 0 ∨ h = 0) :
    nodeCellsUpdate g ⟨id, x, y, w, h⟩ op = .ok g := by
  simp [nodeCellsUpdate, cellList_zero hwh, forCellsUpdate, expectPanic]

theorem willCollidesWith_zero {id : String} {x y w h x2 y2 : Nat}
    {g : GridData} (hwh : w = 0 ∨ h = 0) :
    willCollidesWith ⟨id, x, y, w, h⟩ x2 y2 g = [] := by
  simp [willCollidesWith, cellList_zero hwh]

/-- A `handle_collision` call that finds no collisions leaves the pending
list untouched. -/
theorem collideRun_noCollide (f : Nat) (items : Items) (rg : GridData)
    (node : Node) (x y : Nat) (g : GridData) (p : List Change)
    (hw : willCollidesWith node x y g = []) :
    collideRun (f + 2) items rg [.collide node x y g] p = .ok p := by
  have e1 : collideRun (f + 2) items rg [.collide node x y g] p
      = collideRun (f + 1) items rg
          [.collideList node y (willCollidesWith node x y g)] p := rfl
  rw [e1, hw]
  have e2 : collideRun (f + 1) items rg [.collideList node y []] p
      = collideRun f items rg [] p := rfl
  rw [e2]
  cases f <;> rfl

/-- C10: `add_item` performs no validation of w and h. For every state at
a public boundary (empty pending list), every id not yet present and ANY
coordinates, adding a node with w = 0 or h = 0 succeeds, returns the id,
inserts the zero-area node into the items map, and leaves every grid cell
unchanged — the node occupies no cells, so no later collision check (which
only inspects grid cells) can ever detect it. -/
theorem zero_area_add_accepted (hf : String → String) (S : EngineState)
    (id : String) (x y w h : Nat)
    (hid : itemsGet S.items id = none) (hwh : w = 0 ∨ h = 0)
    (hp : S.pending = []) :
    addItemE hf S id x y w h =
      .ok (⟨S.grid, itemsInsert S.items id ⟨id, x, y, w, h⟩, []⟩, id,
           ⟨[Change.add ⟨id, x, y, w, h⟩], viewHash hf S.grid S.items,
            viewHash hf S.grid (itemsInsert S.items id ⟨id, x, y, w, h⟩)⟩) := by
  have hcr : collideRun engineFuel S.items S.grid
      [.collide ⟨id, x, y, w, h⟩ x y S.grid] [] = .ok [] :=
    collideRun_noCollide 998 S.items S.grid ⟨id, x, y, w, h⟩ x y S.grid []
      (willCollidesWith_zero hwh)
  have hap : applyList S.grid S.items [Change.add ⟨id, x, y, w, h⟩]
      = .ok (S.grid, itemsInsert S.items id ⟨id, x, y, w, h⟩) := by
    simp [applyList, applyOne, nodeCellsUpdate_zero hwh]
  simp [addItemE, hid, hp, hcr, commitChanges, applyChangesE, hap]

/-! ### Event bus round-trip (C8) -/

theorem busFilter_self {H : Type} (l : List (String × H)) (id : String)
    (hf : ∀ q ∈ l, q.1 ≠ id) :
    List.filter (fun q => q.1 != id) l = l := by
  rw [List.filter_eq_self]
  intro a ha
  simpa using hf a ha

theorem busFilter_append {H : Type} (l : List (String × H)) (id : String)
    (handler : H) (hf : ∀ q ∈ l, q.1 ≠ id) :
    List.filter (fun q => q.1 != id) (l ++ [(id, handler)]) = l := by
  rw [List.filter_append, busFilter_self l id hf]
  simp [List.filter]

/-- C8: subscribe-then-unsubscribe is the identity on the bus, and
unsubscribing an unknown id is a no-op. The hypotheses state the two
facts the source guarantees by construction: the generated subscription id
is a fresh UUID, so it differs from every id already registered under the
name, and the bus is well-formed — no name maps to an empty handler
vector, the invariant `remove_listener` maintains by dropping emptied
names. Removal with the returned id restores the bus exactly, including
dropping the name entry when its last handler is removed; removal of an
id not registered under the name changes nothing. -/
theorem bus_subscribe_unsubscribe {N H : Type} [DecidableEq N]
    (bus : Bus N H) (name : N) (id : String) (handler : H)
    (hwf : ∀ l, bus name = some l → l ≠ [])
    (hfresh : ∀ l, bus name = some l → ∀ q ∈ l, q.1 ≠ id) :
    removeListener (addListener bus name id handler) name id = bus ∧
    removeListener bus name id = bus := by
  constructor
  · funext n
    by_cases hn : n = name
    · subst hn
      cases hb : bus n with
      | none => simp [removeListener, addListener, hb, List.filter]
      | some l =>
        have h2 := busFilter_append l id handler (hfresh l hb)
        obtain ⟨a, t, rfl⟩ := List.exists_cons_of_ne_nil (hwf l hb)
        rw [List.cons_append] at h2
        simp only [removeListener, addListener, eq_self_iff_true, if_true,
          hb, Option.getD_some, List.cons_append]
        rw [h2]
        simp
    · simp [removeListener, addListener, hn]
  · funext n
    by_cases hn : n = name
    · subst hn
      cases hb : bus n with
      | none => simp [removeListener, hb]
      | some l =>
        have h2 := busFilter_self l id (hfresh l hb)
        obtain ⟨a, t, rfl⟩ := List.exists_cons_of_ne_nil (hwf l hb)
        simp only [removeListener, eq_self_iff_true, if_true, hb]
        rw [h2]
        simp
    · simp [removeListener, hn]

/-! ### Witnesses -/

/-- Non-vacuity instance shared by the replay and pending witnesses: the
result of `add_item("0",0,0,1,1)` on a fresh 2-by-2 engine. -/
def smallAddResult : EngineState × BatchChangeValue :=
  (⟨[[some "0", none], [none, none]],
    [("0", ⟨"0", 0, 0, 1, 1⟩)], []⟩,
   ⟨[Change.add ⟨"0", 0, 0, 1, 1⟩], "H", "H"⟩)

/-- Witness for C1 at a concrete successful add on a fresh 2-by-2 engine. -/
theorem replay_equivalence_witness :
    ∃ r2, applyChangesE hfc (S0 2 2) smallAddResult.2.changes = .ok r2 ∧
      r2.1.grid = smallAddResult.1.grid ∧
      r2.1.items = smallAddResult.1.items ∧
      viewHash hfc r2.1.grid r2.1.items =
        viewHash hfc smallAddResult.1.grid smallAddResult.1.items :=
  replay_equivalence hfc (S0 2 2) (.addOp "0" 0 0 1 1) smallAddResult
    (by decide)

/-- Witness for C9 at concrete inputs: a successful add ends with an empty
pending list, a concrete `apply_changes` preserves the (empty) pending
list, and its grid/items/batch output ignores a nonempty pending list. -/
theorem pending_changes_boundary_witness :
    smallAddResult.1.pending = [] ∧
    smallAddResult.1.pending = (S0 2 2).pending ∧
    Except.map projGIB (applyChangesE hfc
        ⟨(S0 2 2).grid, (S0 2 2).items, [Change.add ⟨"q", 0, 0, 1, 1⟩]⟩ []) =
      Except.map projGIB (applyChangesE hfc (S0 2 2) []) :=
  ⟨(pending_changes_boundary hfc (S0 2 2)).1 (.addOp "0" 0 0 1 1)
      smallAddResult (by decide),
   (pending_changes_boundary hfc (S0 2 2)).2.1
      [Change.add ⟨"0", 0, 0, 1, 1⟩] smallAddResult (by decide),
   (pending_changes_boundary hfc (S0 2 2)).2.2
      [Change.add ⟨"q", 0, 0, 1, 1⟩] []⟩

/-- Witness for C10: on a fresh 3-by-3 engine, adding id "z" at (5,7) with
w = 0 and h = 2 succeeds, stores the node, and leaves the grid untouched. -/
theorem zero_area_add_accepted_witness :
    addItemE hfc (S0 3 3) "z" 5 7 0 2 =
      .ok (⟨(S0 3 3).grid,
            itemsInsert (S0 3 3).items "z" ⟨"z", 5, 7, 0, 2⟩, []⟩, "z",
           ⟨[Change.add ⟨"z", 5, 7, 0, 2⟩],
            viewHash hfc (S0 3 3).grid (S0 3 3).items,
            viewHash hfc (S0 3 3).grid
              (itemsInsert (S0 3 3).items "z" ⟨"z", 5, 7, 0, 2⟩)⟩) :=
  zero_area_add_accepted hfc (S0 3 3) "z" 5 7 0 2 rfl (Or.inl rfl) rfl

/-- Witness for C8 on a concrete empty bus over String names and Nat
handler tokens. -/
theorem bus_subscribe_unsubscribe_witness :
    removeListener
        (addListener (fun _ => none : Bus String Nat) "e" "i" 0) "e" "i" =
      (fun _ => none : Bus String Nat) ∧
    removeListener (fun _ => none : Bus String Nat) "e" "i" =
      (fun _ => none : Bus String Nat) :=
  bus_subscribe_unsubscribe (fun _ => none) "e" "i" 0
    (fun _ hl => Option.noConfusion hl)
    (fun _ hl => Option.noConfusion hl)
